import Mathlib

/-!
# Elevate1401 — day-rollover and progress-evaluation core

A shallow embedding of the rollover / evaluation subsystem of `src/App.tsx`.
React state (`useState` cells) is collected into an `AppState` record, and each
handler becomes a pure state transition.  `Date` values (the ISO day string and
the millisecond clock) enter as explicit parameters.  `localStorage` is the
`Storage` record; the initialization effect reads the stored values and the
persistence effect writes them, so the rollover logic is expressed directly on
the merged state.

`src/utils/tracker.ts` (the evaluator) is not among the sources; its
`runEvaluator` is modelled from the specification (see the doc comments on
`clampedRatio`, `completionRate`, `streak`, `summaryOf`).
-/

namespace Elevate

/-- `TaskType` from `types.ts`: the union `'count' | 'duration'` (usage visible
throughout `App.tsx`). -/
inductive TaskType where
  | count
  | duration
deriving DecidableEq, Repr

/-- A focus-session record, as appended by `handleFocusSessionEnd`
(`App.tsx` line 350): `{ startTs, endTs, durationMs }`. -/
structure Session where
  startTs : Nat
  endTs : Nat
  durationMs : Nat
deriving DecidableEq, Repr

/-- `Task` as constructed by `addTask` (`App.tsx` lines 242-254). -/
structure Task where
  id : String
  title : String
  category : String
  type : TaskType
  target : Nat
  unit : String
  current : Nat
  sessions : List Session
  tags : List String
  createdAt : Nat
  updatedAt : Nat
deriving DecidableEq, Repr

/-- The `stats` field of a `DayLog` (`App.tsx` lines 304-307 and 131-134). -/
structure Stats where
  completionRate : Nat
  totalFocusTimeMs : Nat
deriving DecidableEq, Repr

/-- `DayLog` as constructed by `performEndDay` (lines 301-308) and by the
automatic rollover (lines 128-135): a date key, a snapshot of the task list
(`JSON.parse(JSON.stringify(tasks))`, i.e. a deep structural copy, rendered
here by value semantics), and the day's stats. -/
structure DayLog where
  date : String
  tasks : List Task
  stats : Stats
deriving DecidableEq, Repr

/-- The profile fields the core logic reads and writes: `onboarded` gates the
dashboard, `xp` is the experience counter (`userProfile.xp || 0`). -/
structure UserProfile where
  onboarded : Bool
  xp : Nat
deriving DecidableEq, Repr

/-- `AIConfig` (`App.tsx` lines 18-24): persisted but never consulted by the
rollover logic. -/
structure AIConfig where
  name : String
  gender : String
  voice : String
  roles : List String
  behaviors : List String
deriving DecidableEq, Repr

/-- The React state cells of `App` that the core transitions read or write.
`lastActiveDate` is `Option String`: `none` models the absent key on first run
(`localStorage.getItem` returning `null`). -/
structure AppState where
  userProfile : Option UserProfile
  aiConfig : AIConfig
  theme : String
  tasks : List Task
  history : List DayLog
  lastActiveDate : Option String
  isAutoSpeechEnabled : Bool
deriving DecidableEq, Repr

/-- The `localStorage` keys the app persists (`App.tsx` lines 75-81 and
176-185), held as typed values rather than serialized strings. -/
structure Storage where
  elevateUser : Option UserProfile
  elevateAi : AIConfig
  elevateTheme : String
  elevateTasks : List Task
  elevateHistory : List DayLog
  elevateAutoSpeech : Bool
  elevateLastDate : Option String
deriving DecidableEq, Repr

/-! ## Evaluator, modelled from the spec -/

/-- Modelled from the spec: `runEvaluator` lives in `src/utils/tracker.ts`,
which is not among the sources.  Spec 4.1: each task contributes its clamped
completion ratio `min(current/target, 1) * 100`; a malformed task
(`target <= 0`, here `target = 0`) is treated as already complete (ratio 1). -/
def clampedRatio (t : Task) : ℚ :=
  if t.target = 0 then 100 else min ((t.current : ℚ) / (t.target : ℚ)) 1 * 100

/-- Modelled from the spec: `completionRate` is 0 for an empty task set,
otherwise the mean of the clamped ratios rounded to the nearest integer
(JavaScript `Math.round`, i.e. `⌊x + 1/2⌋`, which is Mathlib's `round`). -/
def completionRate (tasks : List Task) : Nat :=
  if tasks = [] then 0
  else (round ((tasks.map clampedRatio).sum / (tasks.length : ℚ))).toNat

/-- Modelled from the spec: `streak` counts the consecutive most-recent history
entries (walking backward from the end) whose `stats.completionRate` meets the
50 threshold. -/
def streak (history : List DayLog) : Nat :=
  (history.reverse.takeWhile (fun d => 50 ≤ d.stats.completionRate)).length

/-- Modelled from the spec: the summary is some deterministic short text
derived from the completion rate and the streak; its exact wording is not
observable by any core transition, so a canonical deterministic rendering is
used. -/
def summaryOf (rate strk : Nat) : String :=
  "Completion " ++ toString rate ++ " percent, streak " ++ toString strk

/-- The record returned by `runEvaluator` (fields used by `App.tsx`:
`completionRate`, `streak`, `summary`). -/
structure Metrics where
  completionRate : Nat
  streak : Nat
  summary : String
deriving DecidableEq, Repr

/-- Modelled from the spec: `runEvaluator(tasks, history, profile?)` is pure
and returns the metrics above; the optional profile does not influence the
three fields the core reads. -/
def runEvaluator (tasks : List Task) (history : List DayLog) : Metrics :=
  { completionRate := completionRate tasks
    streak := streak history
    summary := summaryOf (completionRate tasks) (streak history) }

/-! ## Core transitions from `App.tsx` -/

/-- The per-task reset `t => ({...t, current: 0, sessions: [], updatedAt:
Date.now()})` used by both rollover paths (`App.tsx` lines 142 and 314). -/
def resetTask (now : Nat) (t : Task) : Task :=
  { t with current := 0, sessions := [], updatedAt := now }

/-- The day-end bonus of `performEndDay` (`App.tsx` lines 297-299):
100 XP at a completion rate of at least 80, 50 XP at at least 50, else 0. -/
def endDayBonus (rate : Nat) : Nat :=
  if 80 ≤ rate then 100 else if 50 ≤ rate then 50 else 0

/-- `currentTasks.some(t => t.current > 0)` (`App.tsx` line 124). -/
def hasProgress (tasks : List Task) : Bool :=
  tasks.any (fun t => 0 < t.current)

/-- `performEndDay` (`App.tsx` lines 293-338): evaluate the pre-reset tasks,
append a `DayLog` dated today whose task list is a deep snapshot of the live
tasks, reset every task, and (when a profile exists) add the day-end bonus to
`xp`.  The chat message and the streak reward modal are presentation effects
outside the modelled state. -/
def performEndDay (todayStr : String) (now : Nat) (s : AppState) : AppState :=
  let metrics := runEvaluator s.tasks s.history
  let bonusXp := endDayBonus metrics.completionRate
  let log : DayLog :=
    { date := todayStr
      tasks := s.tasks
      stats := { completionRate := metrics.completionRate, totalFocusTimeMs := 0 } }
  { s with
    history := s.history ++ [log]
    tasks := s.tasks.map (resetTask now)
    userProfile := s.userProfile.map (fun p => { p with xp := p.xp + bonusXp }) }

/-- The automatic day-rollover check of the initialization effect
(`App.tsx` lines 121-158).  `savedLastDate` is the stored last-active-date;
JavaScript truthiness makes both `null` (`none`) and the empty string take the
initialization branch.  When the stored date is truthy and differs from today:
archive only if some task has progress, always reset, and set the
last-active-date to today.  The one-time chat message is a presentation effect
outside the modelled state. -/
def autoRollover (todayStr : String) (now : Nat) (s : AppState) : AppState :=
  match s.lastActiveDate with
  | some saved =>
    if saved ≠ "" ∧ saved ≠ todayStr then
      let s1 :=
        if hasProgress s.tasks then
          let metrics := runEvaluator s.tasks s.history
          let log : DayLog :=
            { date := saved
              tasks := s.tasks
              stats := { completionRate := metrics.completionRate, totalFocusTimeMs := 0 } }
          { s with history := s.history ++ [log] }
        else s
      { s1 with tasks := s.tasks.map (resetTask now), lastActiveDate := some todayStr }
    else if saved = "" then
      { s with lastActiveDate := some todayStr }
    else s
  | none => { s with lastActiveDate := some todayStr }

/-- The `completedNow` test of `updateTask` (`App.tsx` lines 264-265):
`oldTask && oldTask.current < oldTask.target && updatedTask.current >=
updatedTask.target`. -/
def crossedBelowToAbove (oldTask : Option Task) (updatedTask : Task) : Bool :=
  match oldTask with
  | some o => decide (o.current < o.target) && decide (updatedTask.target ≤ updatedTask.current)
  | none => false

/-- `updateTask` (`App.tsx` lines 263-272): replace the task with the matching
id, and award +50 XP when the old stored task was below target and the updated
task is at or above its target. -/
def updateTask (updatedTask : Task) (s : AppState) : AppState :=
  let oldTask := s.tasks.find? (fun t => t.id == updatedTask.id)
  let completedNow := crossedBelowToAbove oldTask updatedTask
  { s with
    tasks := s.tasks.map (fun t => if t.id == updatedTask.id then updatedTask else t)
    userProfile :=
      if completedNow then s.userProfile.map (fun p => { p with xp := p.xp + 50 })
      else s.userProfile }

/-- `Math.round(durationMs / 60000)` on a natural number of milliseconds:
round-half-up is `⌊ms/60000 + 1/2⌋ = (ms + 30000) / 60000` in `Nat`. -/
def minutesOf (durationMs : Nat) : Nat :=
  (durationMs + 30000) / 60000

/-- The `updated` task built by `handleFocusSessionEnd` (`App.tsx` lines
342-351): `current` grows by the rounded minutes for duration-type tasks only,
and one session record is appended. -/
def focusUpdated (active : Task) (durationMs now : Nat) : Task :=
  { active with
    current :=
      if active.type = TaskType.duration then active.current + minutesOf durationMs
      else active.current
    sessions :=
      active.sessions ++ [{ startTs := now - durationMs, endTs := now, durationMs := durationMs }] }

/-- `handleFocusSessionEnd` (`App.tsx` lines 340-359) with the active focus
task as a parameter: build `focusUpdated`, pass it through `updateTask`,
then — when a profile exists and the rounded minutes are positive — award
`2 * minutes` XP.  Both `setUserProfile` calls read the same render's
`userProfile`, so the later session-XP write is computed from the pre-call
profile and overwrites any +50 crossing award queued by `updateTask`; the
model reflects that by basing the final profile on `s.userProfile`. -/
def handleFocusSessionEnd (active : Task) (durationMs now : Nat) (s : AppState) : AppState :=
  let durationMin := minutesOf durationMs
  let updated := focusUpdated active durationMs now
  let s1 := updateTask updated s
  if s.userProfile.isSome ∧ 0 < durationMin then
    { s1 with userProfile := s.userProfile.map (fun p => { p with xp := p.xp + durationMin * 2 }) }
  else s1

/-- The persistence effect (`App.tsx` lines 176-185), which runs after every
change to the profile, AI config, theme, tasks, history, or auto-speech flag:
write each key (the profile only when present), and unconditionally stamp
`elevate_last_date` with today's date. -/
def persistEffect (todayStr : String) (s : AppState) (st : Storage) : Storage :=
  let st1 :=
    match s.userProfile with
    | some p => { st with elevateUser := some p }
    | none => st
  { st1 with
    elevateAi := s.aiConfig
    elevateTheme := s.theme
    elevateTasks := s.tasks
    elevateHistory := s.history
    elevateAutoSpeech := s.isAutoSpeechEnabled
    elevateLastDate := some todayStr }

/-- An arbitrary later mutation of the live task list through `setTasks`
(the shape of every task-list write in `App.tsx`). -/
def setTasksOp (f : List Task → List Task) (s : AppState) : AppState :=
  { s with tasks := f s.tasks }

/-- The element-wise shape of the reset performed by both rollover paths:
the new list sets every `current` to 0 and every `sessions` to empty while
keeping each task's `id`, `title`, `target` and `unit` at the same position. -/
def isResetOf (old new : List Task) : Prop :=
  new.length = old.length ∧
    ∀ i (h1 : i < old.length) (h2 : i < new.length),
      (new.get ⟨i, h2⟩).current = 0 ∧ (new.get ⟨i, h2⟩).sessions = [] ∧
      (new.get ⟨i, h2⟩).id = (old.get ⟨i, h1⟩).id ∧
      (new.get ⟨i, h2⟩).title = (old.get ⟨i, h1⟩).title ∧
      (new.get ⟨i, h2⟩).target = (old.get ⟨i, h1⟩).target ∧
      (new.get ⟨i, h2⟩).unit = (old.get ⟨i, h1⟩).unit

/-! ## Concrete fixtures for witnesses and counterexamples -/

/-- The default AI persona (`App.tsx` lines 18-24). -/
def sampleAiConfig : AIConfig :=
  { name := "Coach", gender := "Male", voice := "Deep", roles := ["Coach", "Strategist"],
    behaviors := ["Straightforward", "Focus-driven"] }

/-- A count-type task with no progress, as `addTask` would create it. -/
def sampleTask : Task :=
  { id := "1", title := "Pushups", category := "General", type := TaskType.count, target := 10,
    unit := "reps", current := 0, sessions := [], tags := [], createdAt := 0, updatedAt := 0 }

/-- A duration-type task with no progress. -/
def sampleDurationTask : Task :=
  { sampleTask with
    id := "2"
    title := "Deep work"
    type := TaskType.duration
    target := 120
    unit := "min" }

/-- A count-type task with partial progress (`current = 4` of `target = 10`). -/
def progressTask : Task :=
  { sampleTask with id := "3", current := 4 }

/-- An onboarded state with no tasks or history, last active on 2024-01-01. -/
def baseState : AppState :=
  { userProfile := some { onboarded := true, xp := 0 }, aiConfig := sampleAiConfig,
    theme := "Focus", tasks := [], history := [], lastActiveDate := some "2024-01-01",
    isAutoSpeechEnabled := false }

/-- `baseState` holding one zero-progress task. -/
def zeroProgressState : AppState :=
  { baseState with tasks := [sampleTask] }

/-- `baseState` holding one task with progress. -/
def progressState : AppState :=
  { baseState with tasks := [progressTask] }

/-- `baseState` holding one zero-progress duration task. -/
def durationState : AppState :=
  { baseState with tasks := [sampleDurationTask] }

/-- `baseState` before any last-active-date was ever stored (first run). -/
def firstRunState : AppState :=
  { baseState with lastActiveDate := none }

end Elevate


namespace Elevate

/-! ## Helper lemmas -/

/-- Writing back the value a field already has is the identity. -/
theorem set_lastActiveDate_self {s : AppState} {d : Option String}
    (h : s.lastActiveDate = d) : { s with lastActiveDate := d } = s := by
  cases s
  simp_all

/-- Unfolded form of the automatic-rollover check when no last-active-date is
stored: only the date is initialized. -/
theorem autoRollover_none_eq (s : AppState) (todayStr : String) (now : Nat)
    (hs : s.lastActiveDate = none) :
    autoRollover todayStr now s = { s with lastActiveDate := some todayStr } := by
  unfold autoRollover
  rw [hs]

/-- Unfolded form of the automatic-rollover check when a last-active-date is
stored. -/
theorem autoRollover_some_eq (s : AppState) (todayStr saved : String) (now : Nat)
    (hs : s.lastActiveDate = some saved) :
    autoRollover todayStr now s =
      if saved ≠ "" ∧ saved ≠ todayStr then
        { (if hasProgress s.tasks then
              { s with history := s.history ++
                  [{ date := saved, tasks := s.tasks,
                     stats := { completionRate := completionRate s.tasks,
                                totalFocusTimeMs := 0 } }] }
            else s) with
          tasks := s.tasks.map (resetTask now), lastActiveDate := some todayStr }
      else if saved = "" then
        { s with lastActiveDate := some todayStr }
      else s := by
  unfold autoRollover
  rw [hs]
  rfl

/-- On a detected date change the automatic rollover takes the archive/reset
branch; this is its unfolded form. -/
theorem autoRollover_newDay_eq (s : AppState) (todayStr saved : String) (now : Nat)
    (hs : s.lastActiveDate = some saved) (h1 : saved ≠ "") (h2 : saved ≠ todayStr) :
    autoRollover todayStr now s =
      { (if hasProgress s.tasks then
            { s with history := s.history ++
                [{ date := saved, tasks := s.tasks,
                   stats := { completionRate := completionRate s.tasks,
                              totalFocusTimeMs := 0 } }] }
          else s) with
        tasks := s.tasks.map (resetTask now), lastActiveDate := some todayStr } := by
  rw [autoRollover_some_eq s todayStr saved now hs]
  exact if_pos ⟨h1, h2⟩

/-- When the stored date equals today, the automatic rollover is the
identity. -/
theorem autoRollover_sameDay_eq (s : AppState) (todayStr : String) (now : Nat)
    (hs : s.lastActiveDate = some todayStr) :
    autoRollover todayStr now s = s := by
  rw [autoRollover_some_eq s todayStr todayStr now hs]
  have hc : ¬(todayStr ≠ "" ∧ todayStr ≠ todayStr) := fun h => h.2 rfl
  rw [if_neg hc]
  by_cases h2 : todayStr = ""
  · rw [if_pos h2]
    exact set_lastActiveDate_self hs
  · rw [if_neg h2]

/-- The automatic-rollover check always leaves the last-active-date equal to
today, whichever branch it takes. -/
theorem autoRollover_lastActiveDate (todayStr : String) (now : Nat) (s : AppState) :
    (autoRollover todayStr now s).lastActiveDate = some todayStr := by
  cases hs : s.lastActiveDate with
  | none => rw [autoRollover_none_eq s todayStr now hs]
  | some saved =>
    rw [autoRollover_some_eq s todayStr saved now hs]
    by_cases h1 : saved ≠ "" ∧ saved ≠ todayStr
    · rw [if_pos h1]
    · rw [if_neg h1]
      by_cases h2 : saved = ""
      · rw [if_pos h2]
      · rw [if_neg h2]
        push_neg at h1
        rw [hs, h1 h2]

/-- Mapping the per-task reset over a list yields a reset of it. -/
theorem isResetOf_map (now : Nat) (l : List Task) : isResetOf l (l.map (resetTask now)) := by
  refine ⟨List.length_map l (resetTask now), ?_⟩
  intro i h1 h2
  simp [List.get_eq_getElem, List.getElem_map, resetTask]

/-- A list with only zero-progress tasks has no progress. -/
theorem hasProgress_eq_false_of_zero {l : List Task} (h : ∀ t ∈ l, t.current = 0) :
    hasProgress l = false := by
  simp only [hasProgress, List.any_eq_false, decide_eq_true_eq]
  intro t ht
  simp [h t ht]

/-- The history appended by `performEndDay`: one `DayLog` dated today whose
task list is the pre-reset task list. -/
theorem performEndDay_history (todayStr : String) (now : Nat) (s : AppState) :
    (performEndDay todayStr now s).history
      = s.history ++
        [{ date := todayStr, tasks := s.tasks,
           stats := { completionRate := completionRate s.tasks, totalFocusTimeMs := 0 } }] := rfl

/-- On a detected date change with progress, the automatic rollover appends
one `DayLog` dated with the stale stored date whose task list is the
pre-reset task list. -/
theorem autoRollover_history_newDay (s : AppState) (todayStr saved : String) (now : Nat)
    (hs : s.lastActiveDate = some saved) (h1 : saved ≠ "") (h2 : saved ≠ todayStr)
    (hprog : hasProgress s.tasks = true) :
    (autoRollover todayStr now s).history
      = s.history ++
        [{ date := saved, tasks := s.tasks,
           stats := { completionRate := completionRate s.tasks, totalFocusTimeMs := 0 } }] := by
  rw [autoRollover_newDay_eq s todayStr saved now hs h1 h2, hprog]
  rfl

/-- The automatic rollover never touches the user profile, in any branch. -/
theorem autoRollover_userProfile (todayStr : String) (now : Nat) (s : AppState) :
    (autoRollover todayStr now s).userProfile = s.userProfile := by
  cases hs : s.lastActiveDate with
  | none => rw [autoRollover_none_eq s todayStr now hs]
  | some saved =>
    rw [autoRollover_some_eq s todayStr saved now hs]
    by_cases h1 : saved ≠ "" ∧ saved ≠ todayStr
    · rw [if_pos h1]
      by_cases hp : hasProgress s.tasks = true
      · rw [hp]
        rfl
      · rw [Bool.not_eq_true] at hp
        rw [hp]
        rfl
    · rw [if_neg h1]
      by_cases h2 : saved = ""
      · rw [if_pos h2]
      · rw [if_neg h2]

/-! ## Claims -/

/-- C3: running the automatic-rollover check a second time with the same
"today" (and any clock value) is a no-op: the whole state — tasks, history and
last-active-date included — is exactly what the first run left. -/
theorem autoRollover_idempotent (todayStr : String) (n1 n2 : Nat) (s : AppState) :
    autoRollover todayStr n2 (autoRollover todayStr n1 s) = autoRollover todayStr n1 s :=
  autoRollover_sameDay_eq _ _ _ (autoRollover_lastActiveDate todayStr n1 s)

/-- C9: on first run (no stored last-active-date) the startup check
initializes the last-active-date to today and touches neither the task list
nor the history. -/
theorem firstRun_initializes (s : AppState) (todayStr : String) (now : Nat)
    (h : s.lastActiveDate = none) :
    (autoRollover todayStr now s).tasks = s.tasks
    ∧ (autoRollover todayStr now s).history = s.history
    ∧ (autoRollover todayStr now s).lastActiveDate = some todayStr := by
  unfold autoRollover
  rw [h]
  exact ⟨rfl, rfl, rfl⟩

/-- C9 witness: on the concrete first-run state the check only sets the
date. -/
theorem firstRun_initializes_witness :
    (autoRollover "2024-01-02" 5 firstRunState).tasks = firstRunState.tasks
    ∧ (autoRollover "2024-01-02" 5 firstRunState).history = firstRunState.history
    ∧ (autoRollover "2024-01-02" 5 firstRunState).lastActiveDate = some "2024-01-02" :=
  firstRun_initializes firstRunState "2024-01-02" 5 rfl

/-- C10: every run of the persistence effect — which fires after any change to
the profile, tasks, history, theme, AI config, or auto-speech flag —
overwrites the stored last-active-date with the current day, whatever was
stored there before and whether or not a rollover happened. -/
theorem persistEffect_overwrites_lastDate (todayStr : String) (s : AppState) (st : Storage) :
    (persistEffect todayStr s st).elevateLastDate = some todayStr := by
  unfold persistEffect
  cases s.userProfile <;> rfl

/-- C2: with a truthy stored last-active-date different from today, the
automatic rollover appends nothing to the history when no task has progress,
and in either case resets every task and sets the last-active-date to
today. -/
theorem autoRollover_newDay_spec (s : AppState) (todayStr saved : String) (now : Nat)
    (hs : s.lastActiveDate = some saved) (h1 : saved ≠ "") (h2 : saved ≠ todayStr) :
    ((∀ t ∈ s.tasks, t.current = 0) → (autoRollover todayStr now s).history = s.history)
    ∧ (∀ t ∈ (autoRollover todayStr now s).tasks, t.current = 0 ∧ t.sessions = [])
    ∧ (autoRollover todayStr now s).lastActiveDate = some todayStr := by
  rw [autoRollover_newDay_eq s todayStr saved now hs h1 h2]
  refine ⟨?_, ?_, rfl⟩
  · intro hz
    rw [hasProgress_eq_false_of_zero hz]
    rfl
  · intro t ht
    have ht2 : t ∈ s.tasks.map (resetTask now) := ht
    obtain ⟨t0, _, rfl⟩ := List.mem_map.1 ht2
    exact ⟨rfl, rfl⟩

/-- C2 witness: a state with one zero-progress task, stored date 2024-01-01,
checked on 2024-01-02. -/
theorem autoRollover_newDay_spec_witness :
    ((autoRollover "2024-01-02" 5 zeroProgressState).history = zeroProgressState.history)
    ∧ (∀ t ∈ (autoRollover "2024-01-02" 5 zeroProgressState).tasks,
        t.current = 0 ∧ t.sessions = [])
    ∧ (autoRollover "2024-01-02" 5 zeroProgressState).lastActiveDate = some "2024-01-02" := by
  have h := autoRollover_newDay_spec zeroProgressState "2024-01-02" "2024-01-01" 5 rfl
    (by decide) (by decide)
  exact ⟨h.1 (by decide), h.2.1, h.2.2⟩

/-- C1: for every task list (zero progress included) and every history, the
manual EndDay appends exactly one `DayLog`, resets every task, and raises the
profile xp by 100 when the computed completion rate is at least 80, by 50 when
it is at least 50, and by 0 otherwise (`endDayBonus`). -/
theorem performEndDay_spec (s : AppState) (todayStr : String) (now : Nat)
    (p : UserProfile) (hp : s.userProfile = some p) :
    (performEndDay todayStr now s).history
        = s.history ++
          [{ date := todayStr, tasks := s.tasks,
             stats := { completionRate := completionRate s.tasks, totalFocusTimeMs := 0 } }]
    ∧ (∀ t ∈ (performEndDay todayStr now s).tasks, t.current = 0 ∧ t.sessions = [])
    ∧ (performEndDay todayStr now s).userProfile
        = some { p with xp := p.xp + endDayBonus (completionRate s.tasks) } := by
  refine ⟨rfl, ?_, ?_⟩
  · intro t ht
    have ht2 : t ∈ s.tasks.map (resetTask now) := ht
    obtain ⟨t0, _, rfl⟩ := List.mem_map.1 ht2
    exact ⟨rfl, rfl⟩
  · have h1 : (performEndDay todayStr now s).userProfile
        = Option.map (fun q => { q with xp := q.xp + endDayBonus (completionRate s.tasks) })
            s.userProfile := rfl
    rw [h1, hp]
    rfl

/-- C1 witness: ending the day on the empty task list (rate 0, bonus 0)
appends one log, leaves nothing to reset, and leaves xp at 0. -/
theorem performEndDay_spec_witness :
    (performEndDay "2024-01-01" 5 baseState).history
        = baseState.history ++
          [{ date := "2024-01-01", tasks := baseState.tasks,
             stats := { completionRate := completionRate baseState.tasks,
                        totalFocusTimeMs := 0 } }]
    ∧ (∀ t ∈ (performEndDay "2024-01-01" 5 baseState).tasks, t.current = 0 ∧ t.sessions = [])
    ∧ (performEndDay "2024-01-01" 5 baseState).userProfile = some { onboarded := true, xp := 0 } :=
  performEndDay_spec baseState "2024-01-01" 5 { onboarded := true, xp := 0 } rfl

/-- C4: the archived `DayLog` of either path snapshots the pre-reset tasks by
value: the log records the tasks with their pre-reset `current` and
`sessions`, and neither `updateTask` nor any later `setTasks` mutation of the
live task list changes the appended history. -/
theorem archive_snapshot_independent (s : AppState) (todayStr : String) (now : Nat)
    (u : Task) (f : List Task → List Task) :
    ((performEndDay todayStr now s).history
        = s.history ++
          [{ date := todayStr, tasks := s.tasks,
             stats := { completionRate := completionRate s.tasks, totalFocusTimeMs := 0 } }]
      ∧ (updateTask u (performEndDay todayStr now s)).history
          = (performEndDay todayStr now s).history
      ∧ (setTasksOp f (performEndDay todayStr now s)).history
          = (performEndDay todayStr now s).history)
    ∧ (∀ saved, s.lastActiveDate = some saved → saved ≠ "" → saved ≠ todayStr →
        hasProgress s.tasks = true →
        (autoRollover todayStr now s).history
            = s.history ++
              [{ date := saved, tasks := s.tasks,
                 stats := { completionRate := completionRate s.tasks, totalFocusTimeMs := 0 } }]
        ∧ (updateTask u (autoRollover todayStr now s)).history
            = (autoRollover todayStr now s).history
        ∧ (setTasksOp f (autoRollover todayStr now s)).history
            = (autoRollover todayStr now s).history) := by
  refine ⟨⟨rfl, rfl, rfl⟩, ?_⟩
  intro saved hs h1 h2 hprog
  exact ⟨autoRollover_history_newDay s todayStr saved now hs h1 h2 hprog, rfl, rfl⟩

/-- C4 witness: both paths on a concrete state with one in-progress task,
with a concrete `updateTask` and a task-list-clearing later mutation. -/
theorem archive_snapshot_independent_witness :
    ((performEndDay "2024-01-02" 5 progressState).history
        = progressState.history ++
          [{ date := "2024-01-02", tasks := progressState.tasks,
             stats := { completionRate := completionRate progressState.tasks,
                        totalFocusTimeMs := 0 } }]
      ∧ (updateTask sampleTask (performEndDay "2024-01-02" 5 progressState)).history
          = (performEndDay "2024-01-02" 5 progressState).history
      ∧ (setTasksOp (fun _ => []) (performEndDay "2024-01-02" 5 progressState)).history
          = (performEndDay "2024-01-02" 5 progressState).history)
    ∧ ((autoRollover "2024-01-02" 5 progressState).history
        = progressState.history ++
          [{ date := "2024-01-01", tasks := progressState.tasks,
             stats := { completionRate := completionRate progressState.tasks,
                        totalFocusTimeMs := 0 } }]
      ∧ (updateTask sampleTask (autoRollover "2024-01-02" 5 progressState)).history
          = (autoRollover "2024-01-02" 5 progressState).history
      ∧ (setTasksOp (fun _ => []) (autoRollover "2024-01-02" 5 progressState)).history
          = (autoRollover "2024-01-02" 5 progressState).history) := by
  have h := archive_snapshot_independent progressState "2024-01-02" 5 sampleTask (fun _ => [])
  exact ⟨h.1, h.2 "2024-01-01" rfl (by decide) (by decide) (by decide)⟩

/-- C6 counterexample: a state with a stored date of 2024-01-01, one task with
progress, checked on 2024-01-02 — the rollover archives (history grows by
one) but the user profile is exactly what it was: the automatic path never
updates the profile. -/
theorem autoRollover_profile_counterexample :
    progressState.lastActiveDate = some "2024-01-01"
    ∧ hasProgress progressState.tasks = true
    ∧ (autoRollover "2024-01-02" 7 progressState).history.length
        = progressState.history.length + 1
    ∧ (autoRollover "2024-01-02" 7 progressState).userProfile = progressState.userProfile := by
  refine ⟨rfl, by decide, ?_, ?_⟩
  · rw [autoRollover_history_newDay progressState "2024-01-02" "2024-01-01" 7 rfl
      (by decide) (by decide) (by decide), List.length_append]
    rfl
  · exact autoRollover_userProfile "2024-01-02" 7 progressState

/-- C6 amended: when the automatic rollover detects a date change and at least
one task has progress, it archives the outgoing day (history grows by one)
but leaves the user profile unchanged — the day-end XP bonus exists only on
the manual EndDay path. -/
theorem autoRollover_leaves_profile (s : AppState) (todayStr saved : String) (now : Nat)
    (hs : s.lastActiveDate = some saved) (h1 : saved ≠ "") (h2 : saved ≠ todayStr)
    (hprog : hasProgress s.tasks = true) :
    (autoRollover todayStr now s).history.length = s.history.length + 1
    ∧ (autoRollover todayStr now s).userProfile = s.userProfile := by
  constructor
  · rw [autoRollover_history_newDay s todayStr saved now hs h1 h2 hprog, List.length_append]
    rfl
  · exact autoRollover_userProfile todayStr now s

/-- C6 witness: the amended statement at the concrete state of the
counterexample. -/
theorem autoRollover_leaves_profile_witness :
    (autoRollover "2024-01-02" 7 progressState).history.length
        = progressState.history.length + 1
    ∧ (autoRollover "2024-01-02" 7 progressState).userProfile = progressState.userProfile :=
  autoRollover_leaves_profile progressState "2024-01-02" "2024-01-01" 7 rfl
    (by decide) (by decide) (by decide)

/-- C7: archive-then-reset on either path grows the history by exactly one
entry and maps every task to a copy with `current = 0` and empty `sessions`,
keeping `id`, `title`, `target` and `unit` at each position. -/
theorem archiveReset_frame (s : AppState) (todayStr : String) (now : Nat) :
    ((performEndDay todayStr now s).history.length = s.history.length + 1
      ∧ isResetOf s.tasks (performEndDay todayStr now s).tasks)
    ∧ (∀ saved, s.lastActiveDate = some saved → saved ≠ "" → saved ≠ todayStr →
        hasProgress s.tasks = true →
        (autoRollover todayStr now s).history.length = s.history.length + 1
        ∧ isResetOf s.tasks (autoRollover todayStr now s).tasks) := by
  constructor
  · constructor
    · rw [performEndDay_history, List.length_append]
      rfl
    · exact isResetOf_map now s.tasks
  · intro saved hs h1 h2 hprog
    constructor
    · rw [autoRollover_history_newDay s todayStr saved now hs h1 h2 hprog, List.length_append]
      rfl
    · rw [autoRollover_newDay_eq s todayStr saved now hs h1 h2]
      exact isResetOf_map now s.tasks

/-- C7 witness: both paths at a concrete one-task state with progress. -/
theorem archiveReset_frame_witness :
    ((performEndDay "2024-01-02" 5 progressState).history.length
        = progressState.history.length + 1
      ∧ isResetOf progressState.tasks (performEndDay "2024-01-02" 5 progressState).tasks)
    ∧ ((autoRollover "2024-01-02" 5 progressState).history.length
        = progressState.history.length + 1
      ∧ isResetOf progressState.tasks (autoRollover "2024-01-02" 5 progressState).tasks) := by
  have h := archiveReset_frame progressState "2024-01-02" 5
  exact ⟨h.1, h.2 "2024-01-01" rfl (by decide) (by decide) (by decide)⟩

/-! Lemmas about `updateTask` and `handleFocusSessionEnd` for C5 and C8. -/

/-- The task list written by `updateTask`: every entry with the matching id is
replaced. -/
theorem updateTask_tasks (u : Task) (s : AppState) :
    (updateTask u s).tasks = s.tasks.map (fun t => if t.id == u.id then u else t) := rfl

/-- The profile written by `updateTask`, as a function of the crossing test on
the found old task. -/
theorem updateTask_userProfile (u : Task) (s : AppState) :
    (updateTask u s).userProfile
      = if crossedBelowToAbove (s.tasks.find? (fun t => t.id == u.id)) u = true
        then s.userProfile.map (fun p => { p with xp := p.xp + 50 })
        else s.userProfile := rfl

/-- When no stored task with the matching id crosses its target, `updateTask`
leaves the profile alone. -/
theorem updateTask_userProfile_noCross (u : Task) (s : AppState)
    (h : ∀ o ∈ s.tasks, o.id = u.id → ¬(o.current < o.target ∧ u.target ≤ u.current)) :
    (updateTask u s).userProfile = s.userProfile := by
  rw [updateTask_userProfile]
  cases hfind : s.tasks.find? (fun t => t.id == u.id) with
  | none => rfl
  | some o =>
    have hmem : o ∈ s.tasks := List.mem_of_find?_eq_some hfind
    have hpa := List.find?_some hfind
    have hid : o.id = u.id := eq_of_beq hpa
    have hno := h o hmem hid
    by_cases hcl : o.current < o.target
    · have hnle : ¬(u.target ≤ u.current) := fun hle => hno ⟨hcl, hle⟩
      have hcond : (decide (o.current < o.target) && decide (u.target ≤ u.current)) = false := by
        rw [decide_eq_false hnle, Bool.and_false]
      simp only [crossedBelowToAbove]
      rw [if_neg (fun hc => Bool.false_ne_true (hcond ▸ hc))]
    · have hcond : (decide (o.current < o.target) && decide (u.target ≤ u.current)) = false := by
        rw [decide_eq_false hcl, Bool.false_and]
      simp only [crossedBelowToAbove]
      rw [if_neg (fun hc => Bool.false_ne_true (hcond ▸ hc))]

/-- The task list written by a focus-session end is the one `updateTask`
writes for the updated task, regardless of the XP branch. -/
theorem handleFocusSessionEnd_tasks (active : Task) (durationMs now : Nat) (s : AppState) :
    (handleFocusSessionEnd active durationMs now s).tasks
      = (updateTask (focusUpdated active durationMs now) s).tasks := by
  simp only [handleFocusSessionEnd]
  split_ifs with hc
  · rfl
  · rfl

/-- With a profile present and a positive rounded minute count, the focus
session sets the profile to the pre-call profile plus `2 * minutes` XP — for
any task type, and overwriting any crossing award. -/
theorem handleFocusSessionEnd_userProfile_pos (active : Task) (durationMs now : Nat)
    (s : AppState) (p : UserProfile) (hp : s.userProfile = some p)
    (hmin : 0 < minutesOf durationMs) :
    (handleFocusSessionEnd active durationMs now s).userProfile
      = some { p with xp := p.xp + minutesOf durationMs * 2 } := by
  have hsome : s.userProfile.isSome = true := by rw [hp]; rfl
  simp only [handleFocusSessionEnd]
  rw [if_pos (And.intro hsome hmin), hp]
  rfl

/-- With a zero rounded minute count, the focus session leaves the profile to
whatever `updateTask` wrote. -/
theorem handleFocusSessionEnd_userProfile_zero (active : Task) (durationMs now : Nat)
    (s : AppState) (hmin : minutesOf durationMs = 0) :
    (handleFocusSessionEnd active durationMs now s).userProfile
      = (updateTask (focusUpdated active durationMs now) s).userProfile := by
  have hneg : ¬(s.userProfile.isSome = true ∧ 0 < minutesOf durationMs) := by
    rw [hmin]
    exact fun hc => Nat.lt_irrefl 0 hc.2
  simp only [handleFocusSessionEnd]
  rw [if_neg hneg]

/-- C5 counterexample: a count-type task and a 30-minute focus session — the
profile gains 60 XP even though the task is not duration-typed, refuting
"for a count-type task, recording a focus session awards no xp". -/
theorem focusXp_countTask_counterexample :
    sampleTask.type = TaskType.count
    ∧ zeroProgressState.userProfile = some { onboarded := true, xp := 0 }
    ∧ (handleFocusSessionEnd sampleTask 1800000 2000000 zeroProgressState).userProfile
        = some { onboarded := true, xp := 60 } :=
  ⟨rfl, rfl, rfl⟩

/-- C5 amended: completing a focus session with a positive rounded minute
count awards `2 * minutes` XP regardless of the task's type; only the
increment to `current` is restricted to duration-type tasks, so a count-type
task still gains the XP while its `current` stays unchanged. -/
theorem focusXp_any_type (s : AppState) (active : Task) (durationMs now : Nat)
    (p : UserProfile) (hp : s.userProfile = some p) (hmin : 0 < minutesOf durationMs) :
    (handleFocusSessionEnd active durationMs now s).userProfile
      = some { p with xp := p.xp + minutesOf durationMs * 2 }
    ∧ (active.type = TaskType.count →
        ∀ t ∈ (handleFocusSessionEnd active durationMs now s).tasks,
          t.id = active.id → t.current = active.current) := by
  refine ⟨handleFocusSessionEnd_userProfile_pos active durationMs now s p hp hmin, ?_⟩
  intro htype t ht htid
  rw [handleFocusSessionEnd_tasks, updateTask_tasks] at ht
  obtain ⟨t0, ht0, rfl⟩ := List.mem_map.1 ht
  by_cases hb : (t0.id == (focusUpdated active durationMs now).id) = true
  · rw [if_pos hb]
    show (focusUpdated active durationMs now).current = active.current
    simp [focusUpdated, htype]
  · rw [if_neg hb] at htid
    have hgood : (t0.id == (focusUpdated active durationMs now).id) = true := by
      simp [focusUpdated, htid]
    exact absurd hgood hb

/-- C5 amended witness: the count-type task of the counterexample — 60 XP
awarded, `current` unchanged. -/
theorem focusXp_any_type_witness :
    (handleFocusSessionEnd sampleTask 1800000 2000000 zeroProgressState).userProfile
        = some { onboarded := true, xp := 60 }
    ∧ (∀ t ∈ (handleFocusSessionEnd sampleTask 1800000 2000000 zeroProgressState).tasks,
        t.id = sampleTask.id → t.current = sampleTask.current) := by
  have h := focusXp_any_type zeroProgressState sampleTask 1800000 2000000
    { onboarded := true, xp := 0 } rfl (by decide)
  exact ⟨h.1, h.2 rfl⟩

/-- C8: recording a focus session on a duration-type task (whose stored entry
agrees with the active snapshot) appends exactly one session record and
raises the task's `current` by the duration rounded to whole minutes, and the
profile gains `2 * minutes` XP exactly when the rounded minute count is
positive. -/
theorem focusSession_duration_spec (s : AppState) (active : Task) (durationMs now : Nat)
    (p : UserProfile) (hp : s.userProfile = some p)
    (htype : active.type = TaskType.duration)
    (hagree : ∀ t ∈ s.tasks, t.id = active.id → t = active) :
    (∀ t ∈ (handleFocusSessionEnd active durationMs now s).tasks, t.id = active.id →
        t.current = active.current + minutesOf durationMs
        ∧ t.sessions = active.sessions
            ++ [{ startTs := now - durationMs, endTs := now, durationMs := durationMs }])
    ∧ (0 < minutesOf durationMs →
        (handleFocusSessionEnd active durationMs now s).userProfile
          = some { p with xp := p.xp + minutesOf durationMs * 2 })
    ∧ (minutesOf durationMs = 0 →
        (handleFocusSessionEnd active durationMs now s).userProfile = some p) := by
  refine ⟨?_, ?_, ?_⟩
  · intro t ht htid
    rw [handleFocusSessionEnd_tasks, updateTask_tasks] at ht
    obtain ⟨t0, ht0, rfl⟩ := List.mem_map.1 ht
    by_cases hb : (t0.id == (focusUpdated active durationMs now).id) = true
    · rw [if_pos hb]
      refine ⟨?_, rfl⟩
      show (focusUpdated active durationMs now).current = active.current + minutesOf durationMs
      simp [focusUpdated, htype]
    · rw [if_neg hb] at htid
      have hgood : (t0.id == (focusUpdated active durationMs now).id) = true := by
        simp [focusUpdated, htid]
      exact absurd hgood hb
  · exact fun hmin => handleFocusSessionEnd_userProfile_pos active durationMs now s p hp hmin
  · intro hmin
    have hno : ∀ o ∈ s.tasks, o.id = (focusUpdated active durationMs now).id →
        ¬(o.current < o.target ∧ (focusUpdated active durationMs now).target
            ≤ (focusUpdated active durationMs now).current) := by
      intro o ho hid hcross
      have ho2 : o = active := hagree o ho hid
      have hcur : (focusUpdated active durationMs now).current = active.current := by
        simp [focusUpdated, htype, hmin]
      have htar : (focusUpdated active durationMs now).target = active.target := rfl
      rw [hcur, htar, ho2] at hcross
      exact absurd hcross.1 (Nat.not_lt.2 hcross.2)
    rw [handleFocusSessionEnd_userProfile_zero active durationMs now s hmin,
        updateTask_userProfile_noCross (focusUpdated active durationMs now) s hno, hp]

/-- C8 witness: a 30-minute session on the concrete duration task — `current`
goes from 0 to 30, one session is appended, and 60 XP is awarded. -/
theorem focusSession_duration_spec_witness :
    (∀ t ∈ (handleFocusSessionEnd sampleDurationTask 1800000 2000000 durationState).tasks,
        t.id = sampleDurationTask.id →
          t.current = 30
          ∧ t.sessions = [{ startTs := 200000, endTs := 2000000, durationMs := 1800000 }])
    ∧ (handleFocusSessionEnd sampleDurationTask 1800000 2000000 durationState).userProfile
        = some { onboarded := true, xp := 60 } := by
  have h := focusSession_duration_spec durationState sampleDurationTask 1800000 2000000
    { onboarded := true, xp := 0 } rfl rfl (by decide)
  exact ⟨h.1, h.2.1 (by decide)⟩

end Elevate
